import Mathlib

/-!
Shallow embedding of the LedgerLive API SDK facade
(src/lib/LedgerLiveApiSdk.ts) over the Transport contract
(LedgerLiveApiSdk.types).

The `LedgerLiveApi` class owns a `Transport`, a `Logger` and an optional
`serverAndClient` JSON-RPC session.  We model an instance's mutable fields
as an explicit `ApiState`, the external collaborators (Transport results,
host responses, pluggable serializers) as an `Env`, and every observable
side effect (logger calls, Transport I/O, session field updates) as an
`Event` trace.  Each method becomes a function
`ApiState → Env → Except Err α × ApiState × List Event`; a thrown JS
`Error` or a rejected promise is the `Except.error` case.
-/

namespace LedgerLive

/-- Wire-level JSON values exchanged with the host over the Transport. -/
inductive JValue where
  | null
  | bool (b : Bool)
  | num (n : Int)
  | str (s : String)
  | arr (items : List JValue)
  | obj (fields : List (String × JValue))
  deriving Repr

/-- JavaScript truthiness on wire values; an object or array is always
truthy, as used by the `params or default` idiom of the facade. -/
def JValue.isFalsy : JValue → Bool
  | .null => true
  | .bool b => !b
  | .num n => n == 0
  | .str s => s == ""
  | .arr _ => false
  | .obj _ => false

/-- The JS `p || d` idiom applied to an optional parameter object:
an absent (`undefined`) or falsy value is replaced by the default. -/
def jsOr (p : Option JValue) (d : JValue) : JValue :=
  match p with
  | none => d
  | some v => if v.isFalsy then d else v

/-- Rich in-memory account, produced by the external `deserializeAccount`. -/
structure Account where
  data : JValue
  deriving Repr

/-- Rich in-memory transaction, consumed by the external
`serializeTransaction`. -/
structure Transaction where
  data : JValue
  deriving Repr

/-- Rich in-memory signed transaction, related to its wire form by the
external `serializeSignedTransaction` / `deserializeSignedTransaction`. -/
structure SignedTransaction where
  data : JValue
  deriving Repr

/-- Failure of a facade call: either a thrown JS `Error` with its message,
or the rejection value of the underlying JSON-RPC request (transport send
failure or error-shaped response). -/
inductive Err where
  | thrown (message : String)
  | rejected (value : JValue)
  deriving Repr

/-- The error thrown by `_request` when no session exists. -/
def notConnectedErr : Err := .thrown "Ledger Live API not connected"

/-- The error thrown by every placeholder operation. -/
def notImplementedErr : Err := .thrown "Function is not implemented yet"

/-- Observable side effects of a facade method, in program order:
logger calls at their three levels, Transport I/O, and updates of the
instance's session binding. -/
inductive Event where
  | logError (msg : String)
  | logWarn (msg : String)
  | logInfo (msg : String)
  | setOnMessage (session : Nat)
  | transportConnect
  | transportDisconnect
  | transportSend (method : String) (params : Option JValue)
  | sessionInstalled (session : Nat)
  | sessionDropped
  deriving Repr

/-- Transport I/O events: `connect`, `disconnect` and `send` calls on the
underlying Transport. -/
def Event.isTransportIO : Event → Bool
  | .transportConnect => true
  | .transportDisconnect => true
  | .transportSend _ _ => true
  | _ => false

/-- A `send` call on the underlying Transport. -/
def Event.isSend : Event → Bool
  | .transportSend _ _ => true
  | _ => false

/-- The mutable fields of a `LedgerLiveApi` instance: the optional
`serverAndClient` session (identified by a number so that distinct
sessions are distinguishable), a counter producing fresh session
identities, and which session's dispatcher the Transport's `onMessage`
callback currently points to. -/
structure ApiState where
  serverAndClient : Option Nat
  nextSession : Nat
  onMessage : Option Nat
  deriving Repr

/-- A freshly constructed instance: no session, no callback registered. -/
def ApiState.init : ApiState :=
  { serverAndClient := none, nextSession := 0, onMessage := none }

/-- The external collaborators the facade is wired to: the pluggable
domain serializers, the host answering JSON-RPC requests (`.ok` the raw
result payload, `.error` the rejection of the request promise), and the
outcomes of the Transport lifecycle calls. -/
structure Env where
  deserializeAccount : JValue → Account
  serializeTransaction : Transaction → JValue
  deserializeSignedTransaction : JValue → SignedTransaction
  serializeSignedTransaction : SignedTransaction → JValue
  host : String → Option JValue → Except Err JValue
  transportConnect : Except Err Unit
  transportDisconnect : Except Err Unit

/-- Result of running one facade method: its settled value, the instance
state afterwards, and the trace of side effects it produced. -/
abbrev Res (α : Type) := Except Err α × ApiState × List Event

/-- The different types of exchanges (LedgerLiveApiSdk.types). -/
inductive ExchangeType where
  | Swap
  | Buy
  | Fund
  deriving Repr

/-- Fee levels for a transaction (LedgerLiveApiSdk.types). -/
inductive FeesLevel where
  | Low
  | Standard
  | High
  deriving Repr

/-- Device models (LedgerLiveApiSdk.types). -/
inductive DeviceModel where
  | Blue
  | NanoS
  | NanoX
  deriving Repr

/-- Metadata describing a secure exchange between a Ledger device and a
partner (LedgerLiveApiSdk.types). -/
structure ExchangePayload where
  email : String
  accountName : String
  inCurrency : String
  inAmount : String
  inAddress : String
  outCurrency : Option String
  outAmount : Option String
  outAddress : Option String
  nonce : String
  deriving Repr

/-- An ECDSA signature as two byte buffers (LedgerLiveApiSdk.types). -/
structure EcdsaSignature where
  r : List Nat
  s : List Nat
  deriving Repr

/-- Estimated fees for three confirmation-speed levels
(LedgerLiveApiSdk.types). -/
structure EstimatedFees where
  low : Int
  standard : Int
  high : Int
  deriving Repr

/-- Information about a device application (LedgerLiveApiSdk.types). -/
structure ApplicationDetails where
  name : String
  version : String
  deriving Repr

/-- Information about a device (LedgerLiveApiSdk.types). -/
structure DeviceDetails where
  modelId : DeviceModel
  version : String
  deriving Repr

namespace LedgerLiveApi

/-- `_request(method, params)`: fails with the not-connected error when
no `serverAndClient` session exists (logging at error level, touching the
Transport not at all); otherwise logs the request, performs it through
the session (which sends the envelope through `Transport.send`), logs the
response or — at warning level — the failure, and rethrows any failure
unchanged. -/
def _request (method : String) (params : Option JValue)
    (s : ApiState) (env : Env) : Res JValue :=
  match s.serverAndClient with
  | none =>
      (.error notConnectedErr, s, [.logError ("not connected " ++ method)])
  | some _ =>
      match env.host method params with
      | .ok result =>
          (.ok result, s,
            [.logInfo ("request - " ++ method),
             .transportSend method params,
             .logInfo ("response - " ++ method)])
      | .error e =>
          (.error e, s,
            [.logInfo ("request - " ++ method),
             .transportSend method params,
             .logWarn ("error - " ++ method)])

/-- `connect()`: builds a fresh `JSONRPCServerAndClient` session bound to
the Transport, registers its dispatcher as the Transport's `onMessage`
callback, calls `Transport.connect()`, and only then installs the session
in the `serverAndClient` field and logs; if `Transport.connect()` throws,
the error propagates and the field is left untouched. -/
def connect (s : ApiState) (env : Env) : Res Unit :=
  let n := s.nextSession
  let s1 : ApiState := { s with onMessage := some n, nextSession := n + 1 }
  match env.transportConnect with
  | .error e =>
      (.error e, s1, [.setOnMessage n, .transportConnect])
  | .ok _ =>
      (.ok (), { s1 with serverAndClient := some n },
        [.setOnMessage n, .transportConnect, .sessionInstalled n,
         .logInfo "connected"])

/-- `disconnect()`: deletes the `serverAndClient` field, then awaits
`Transport.disconnect()` and logs; a rejection of the Transport call
propagates, but the field is already dropped by then. -/
def disconnect (s : ApiState) (env : Env) : Res Unit :=
  let s1 : ApiState := { s with serverAndClient := none }
  match env.transportDisconnect with
  | .error e =>
      (.error e, s1, [.sessionDropped, .transportDisconnect])
  | .ok _ =>
      (.ok (), s1,
        [.sessionDropped, .transportDisconnect, .logInfo "disconnected"])

/-- `requestAccount(params)`: calls `account.request` with `params`
defaulted to the empty object, and deserializes the returned account. -/
def requestAccount (params : Option JValue)
    (s : ApiState) (env : Env) : Res Account :=
  match _request "account.request" (some (jsOr params (.obj []))) s env with
  | (.ok raw, s1, t) => (.ok (env.deserializeAccount raw), s1, t)
  | (.error e, s1, t) => (.error e, s1, t)

/-- `listAccounts()`: calls `account.list` with no params and maps
`deserializeAccount` over the returned array; a non-array result makes
the `.map` call throw a TypeError. -/
def listAccounts (s : ApiState) (env : Env) : Res (List Account) :=
  match _request "account.list" none s env with
  | (.ok (.arr raws), s1, t) =>
      (.ok (raws.map env.deserializeAccount), s1, t)
  | (.ok _, s1, t) =>
      (.error (.thrown "TypeError: rawAccounts.map is not a function"),
        s1, t)
  | (.error e, s1, t) => (.error e, s1, t)

/-- `listCurrencies(params?)`: calls `currency.list` with `params`
defaulted to the empty object; the raw result is returned unmodified. -/
def listCurrencies (params : Option JValue)
    (s : ApiState) (env : Env) : Res JValue :=
  _request "currency.list" (some (jsOr params (.obj []))) s env

/-- `receive(accountId)`: calls `account.receive` with the account id
wrapped in an object; the raw result (the verified address) is returned
unmodified. -/
def receive (accountId : String) (s : ApiState) (env : Env) : Res JValue :=
  _request "account.receive" (some (.obj [("accountId", .str accountId)]))
    s env

/-- The object literal `signTransaction` passes to `_request`: the
account id, the serialized transaction, and `params` defaulted to the
empty object. -/
def signPayload (env : Env) (accountId : String)
    (transaction : Transaction) (params : Option JValue) : JValue :=
  .obj [("accountId", .str accountId),
        ("transaction", env.serializeTransaction transaction),
        ("params", jsOr params (.obj []))]

/-- `signTransaction(accountId, transaction, params?)`: serializes the
transaction, calls `transaction.sign` with the account id, the serialized
transaction and `params` defaulted to the empty object, and deserializes
the signed-transaction result. -/
def signTransaction (accountId : String) (transaction : Transaction)
    (params : Option JValue) (s : ApiState) (env : Env) :
    Res SignedTransaction :=
  match _request "transaction.sign"
      (some (signPayload env accountId transaction params)) s env with
  | (.ok raw, s1, t) => (.ok (env.deserializeSignedTransaction raw), s1, t)
  | (.error e, s1, t) => (.error e, s1, t)

/-- `broadcastSignedTransaction(accountId, signedTransaction)`: serializes
the signed transaction and calls `transaction.broadcast`; the raw result
(the transaction hash) is returned unmodified. -/
def broadcastSignedTransaction (accountId : String)
    (signedTransaction : SignedTransaction) (s : ApiState) (env : Env) :
    Res JValue :=
  _request "transaction.broadcast"
    (some (.obj [("accountId", .str accountId),
                 ("signedTransaction",
                  env.serializeSignedTransaction signedTransaction)]))
    s env

/-- `estimateTransactionFees(accountId, transaction)`: placeholder that
throws the not-implemented error before doing anything else. -/
def estimateTransactionFees (accountId : String)
    (transaction : Transaction) (s : ApiState) (env : Env) :
    Res EstimatedFees :=
  (.error notImplementedErr, s, [])

/-- `synchronizeAccount(accountId)`: placeholder that throws the
not-implemented error before doing anything else. -/
def synchronizeAccount (accountId : String) (s : ApiState) (env : Env) :
    Res Account :=
  (.error notImplementedErr, s, [])

/-- `initExchange(exchangeType, partnerName)`: placeholder that throws
the not-implemented error before doing anything else. -/
def initExchange (exchangeType : ExchangeType) (partnerName : String)
    (s : ApiState) (env : Env) : Res JValue :=
  (.error notImplementedErr, s, [])

/-- `completeExchange(exchangePayload, payloadSignature, txFeesLevel)`:
placeholder that throws the not-implemented error before doing anything
else. -/
def completeExchange (exchangePayload : ExchangePayload)
    (payloadSignature : EcdsaSignature) (txFeesLevel : FeesLevel)
    (s : ApiState) (env : Env) : Res Unit :=
  (.error notImplementedErr, s, [])

/-- `getDeviceInfo()`: placeholder that throws the not-implemented error
before doing anything else. -/
def getDeviceInfo (s : ApiState) (env : Env) : Res DeviceDetails :=
  (.error notImplementedErr, s, [])

/-- `listApps()`: placeholder that throws the not-implemented error
before doing anything else. -/
def listApps (s : ApiState) (env : Env) : Res (List ApplicationDetails) :=
  (.error notImplementedErr, s, [])

/-- `bridgeApp(appName, handler)`: placeholder that throws the
not-implemented error before doing anything else; the generic handler is
never invoked. -/
def bridgeApp {H Result : Type} (appName : String) (handler : H)
    (s : ApiState) (env : Env) : Res Result :=
  (.error notImplementedErr, s, [])

/-- `bridgeDashboard(handler)`: placeholder that throws the
not-implemented error before doing anything else; the generic handler is
never invoked. -/
def bridgeDashboard {H Result : Type} (handler : H)
    (s : ApiState) (env : Env) : Res Result :=
  (.error notImplementedErr, s, [])

end LedgerLiveApi

/-- JS truthiness of an optional parameter: `undefined` (absent) and
falsy values both trigger the default in `p || d`. -/
def jsFalsyOpt : Option JValue → Bool
  | none => true
  | some v => v.isFalsy

/-- The `p || d` idiom yields the default exactly on absent or falsy
input. -/
theorem jsOr_of_falsy (p : Option JValue) (d : JValue)
    (hp : jsFalsyOpt p = true) : jsOr p d = d := by
  cases p with
  | none => rfl
  | some v => simp only [jsFalsyOpt] at hp; simp [jsOr, hp]

/-- A sample wiring of the external collaborators, used to instantiate
the conditional theorems: trivial serializers, a host that answers
`account.list` with two records and anything else with `null`, and a
Transport whose lifecycle calls succeed. -/
def sampleEnv : Env where
  deserializeAccount := Account.mk
  serializeTransaction := Transaction.data
  deserializeSignedTransaction := SignedTransaction.mk
  serializeSignedTransaction := SignedTransaction.data
  host := fun method _ =>
    if method = "account.list" then .ok (.arr [.str "a1", .str "a2"])
    else .ok .null
  transportConnect := .ok ()
  transportDisconnect := .ok ()

/-- `sampleEnv` with a Transport whose `connect()` throws. -/
def sampleFailEnv : Env :=
  { sampleEnv with transportConnect := .error (.thrown "ws refused") }

/-- An instance in the connected state, session 0 installed. -/
def connectedState : ApiState :=
  { serverAndClient := some 0, nextSession := 1, onMessage := some 0 }

/-- C1: with no Session (`serverAndClient` empty, as after construction
or `disconnect()`), `_request` fails synchronously with the not-connected
error, leaves the state unchanged, and performs no Transport I/O at all:
in particular `Transport.send` is never invoked. -/
theorem invoke_not_connected_no_io (method : String)
    (params : Option JValue) (s : ApiState) (env : Env)
    (h : s.serverAndClient = none) :
    (LedgerLiveApi._request method params s env).1 = .error notConnectedErr ∧
    (LedgerLiveApi._request method params s env).2.1 = s ∧
    ∀ e ∈ (LedgerLiveApi._request method params s env).2.2,
      e.isTransportIO = false := by
  simp [LedgerLiveApi._request, h, Event.isTransportIO]

/-- Witness for C1 at a concrete input: a fresh instance, method
`account.list`. -/
theorem invoke_not_connected_no_io_witness :
    ApiState.init.serverAndClient = none ∧
    ((LedgerLiveApi._request "account.list" none ApiState.init
        sampleEnv).1 = .error notConnectedErr ∧
     (LedgerLiveApi._request "account.list" none ApiState.init
        sampleEnv).2.1 = ApiState.init ∧
     ∀ e ∈ (LedgerLiveApi._request "account.list" none ApiState.init
        sampleEnv).2.2, e.isTransportIO = false) :=
  ⟨rfl, invoke_not_connected_no_io "account.list" none ApiState.init
    sampleEnv rfl⟩

/-- C2: calling `connect()` while a session `k` is already installed does
not throw (given the Transport's own `connect()` succeeds): it installs a
fresh session — `nextSession`, distinct from `k` —, re-registers the
inbound `onMessage` callback for that fresh session, and calls
`Transport.connect()` again. -/
theorem connect_while_connected_replaces_session (s : ApiState)
    (env : Env) (k : Nat) (hc : s.serverAndClient = some k)
    (hk : k < s.nextSession) (ht : env.transportConnect = .ok ()) :
    (LedgerLiveApi.connect s env).1 = .ok () ∧
    (LedgerLiveApi.connect s env).2.1.serverAndClient =
      some s.nextSession ∧
    s.nextSession ≠ k ∧
    (LedgerLiveApi.connect s env).2.1.onMessage = some s.nextSession ∧
    Event.transportConnect ∈ (LedgerLiveApi.connect s env).2.2 := by
  refine ⟨?_, ?_, ?_, ?_, ?_⟩ <;>
    simp [LedgerLiveApi.connect, ht, Nat.ne_of_gt hk]

/-- Witness for C2 at a concrete input: the connected state with session
0 and the sample environment. -/
theorem connect_while_connected_replaces_session_witness :
    connectedState.serverAndClient = some 0 ∧
    0 < connectedState.nextSession ∧
    sampleEnv.transportConnect = .ok () ∧
    ((LedgerLiveApi.connect connectedState sampleEnv).1 = .ok () ∧
     (LedgerLiveApi.connect connectedState sampleEnv).2.1.serverAndClient =
       some connectedState.nextSession ∧
     connectedState.nextSession ≠ 0 ∧
     (LedgerLiveApi.connect connectedState sampleEnv).2.1.onMessage =
       some connectedState.nextSession ∧
     Event.transportConnect ∈
       (LedgerLiveApi.connect connectedState sampleEnv).2.2) :=
  ⟨rfl, Nat.zero_lt_one, rfl,
    connect_while_connected_replaces_session connectedState sampleEnv 0
      rfl Nat.zero_lt_one rfl⟩

/-- C3: `disconnect()` first drops the session reference and only then
calls the Transport — its trace begins with the session drop followed by
`Transport.disconnect` — and afterwards every `_request` rejects with the
not-connected error without any `Transport.send`. -/
theorem disconnect_drops_session_then_transport (s : ApiState)
    (env : Env) (method : String) (params : Option JValue) :
    (LedgerLiveApi.disconnect s env).2.1.serverAndClient = none ∧
    (LedgerLiveApi.disconnect s env).2.2.take 2 =
      [Event.sessionDropped, Event.transportDisconnect] ∧
    (LedgerLiveApi._request method params
      (LedgerLiveApi.disconnect s env).2.1 env).1 =
        .error notConnectedErr ∧
    ∀ e ∈ (LedgerLiveApi._request method params
      (LedgerLiveApi.disconnect s env).2.1 env).2.2,
        e.isSend = false := by
  cases ht : env.transportDisconnect with
  | error e =>
      simp [LedgerLiveApi.disconnect, LedgerLiveApi._request, ht,
        Event.isSend]
  | ok a =>
      simp [LedgerLiveApi.disconnect, LedgerLiveApi._request, ht,
        Event.isSend]

/-- C4: when connected, `signTransaction` sends method `transaction.sign`
with the payload holding the account id, the output of
`serializeTransaction` on the given transaction (not the raw object), and
the defaulted params; on a successful response it returns
`deserializeSignedTransaction` of the raw result. -/
theorem signTransaction_serializes_and_deserializes (accountId : String)
    (tx : Transaction) (params : Option JValue) (s : ApiState) (env : Env)
    (k : Nat) (hc : s.serverAndClient = some k) :
    Event.transportSend "transaction.sign"
        (some (LedgerLiveApi.signPayload env accountId tx params)) ∈
      (LedgerLiveApi.signTransaction accountId tx params s env).2.2 ∧
    ∀ r, env.host "transaction.sign"
        (some (LedgerLiveApi.signPayload env accountId tx params)) = .ok r →
      (LedgerLiveApi.signTransaction accountId tx params s env).1 =
        .ok (env.deserializeSignedTransaction r) := by
  unfold LedgerLiveApi.signTransaction LedgerLiveApi._request
  rw [hc]
  cases hh : env.host "transaction.sign"
      (some (LedgerLiveApi.signPayload env accountId tx params)) with
  | error e => simp
  | ok r => simp

/-- Witness for C4 at a concrete input: the connected state, account
`acc-1`, a sample transaction, no params. -/
theorem signTransaction_serializes_and_deserializes_witness :
    connectedState.serverAndClient = some 0 ∧
    (Event.transportSend "transaction.sign"
        (some (LedgerLiveApi.signPayload sampleEnv "acc-1" (Transaction.mk (.str "t"))
          none)) ∈
      (LedgerLiveApi.signTransaction "acc-1" (Transaction.mk (.str "t"))
        none connectedState sampleEnv).2.2 ∧
     ∀ r, sampleEnv.host "transaction.sign"
        (some (LedgerLiveApi.signPayload sampleEnv "acc-1" (Transaction.mk (.str "t"))
          none)) = .ok r →
      (LedgerLiveApi.signTransaction "acc-1" (Transaction.mk (.str "t"))
        none connectedState sampleEnv).1 =
        .ok (sampleEnv.deserializeSignedTransaction r)) :=
  ⟨rfl, signTransaction_serializes_and_deserializes "acc-1"
    (Transaction.mk (.str "t")) none connectedState sampleEnv 0 rfl⟩

/-- C5: when connected and the host answers `account.list` with an array
of N raw records, `listAccounts` returns exactly the records mapped
through `deserializeAccount`: same length, and the i-th returned account
is `deserializeAccount` of the i-th record. -/
theorem listAccounts_maps_deserializeAccount (records : List JValue)
    (s : ApiState) (env : Env) (k : Nat)
    (hc : s.serverAndClient = some k)
    (hh : env.host "account.list" none = .ok (.arr records)) :
    (LedgerLiveApi.listAccounts s env).1 =
      .ok (records.map env.deserializeAccount) ∧
    (records.map env.deserializeAccount).length = records.length ∧
    ∀ i : Nat, (records.map env.deserializeAccount)[i]? =
      (records[i]?).map env.deserializeAccount := by
  refine ⟨?_, by simp, fun i => by simp⟩
  unfold LedgerLiveApi.listAccounts LedgerLiveApi._request
  rw [hc, hh]

/-- Witness for C5 at a concrete input: the connected state and the
sample host, which answers `account.list` with two records. -/
theorem listAccounts_maps_deserializeAccount_witness :
    connectedState.serverAndClient = some 0 ∧
    sampleEnv.host "account.list" none =
      .ok (.arr [.str "a1", .str "a2"]) ∧
    ((LedgerLiveApi.listAccounts connectedState sampleEnv).1 =
      .ok ([JValue.str "a1",
            JValue.str "a2"].map sampleEnv.deserializeAccount) ∧
     ([JValue.str "a1",
       JValue.str "a2"].map sampleEnv.deserializeAccount).length =
        [JValue.str "a1", JValue.str "a2"].length ∧
     ∀ i : Nat,
       ([JValue.str "a1",
         JValue.str "a2"].map sampleEnv.deserializeAccount)[i]? =
        ([JValue.str "a1",
          JValue.str "a2"][i]?).map sampleEnv.deserializeAccount) :=
  ⟨rfl, rfl, listAccounts_maps_deserializeAccount
    [.str "a1", .str "a2"] connectedState sampleEnv 0 rfl rfl⟩

/-- C6: each of the eight placeholder operations fails immediately and
unconditionally with the not-implemented error, in every state and
environment, with no Transport I/O (empty trace) and no state change. -/
theorem placeholder_operations_throw_unimplemented {H R : Type}
    (s : ApiState) (env : Env) (accountId : String) (tx : Transaction)
    (exchangeType : ExchangeType) (partnerName : String)
    (exchangePayload : ExchangePayload)
    (payloadSignature : EcdsaSignature) (txFeesLevel : FeesLevel)
    (appName : String) (handler : H) :
    LedgerLiveApi.estimateTransactionFees accountId tx s env =
      (.error notImplementedErr, s, []) ∧
    LedgerLiveApi.synchronizeAccount accountId s env =
      (.error notImplementedErr, s, []) ∧
    LedgerLiveApi.initExchange exchangeType partnerName s env =
      (.error notImplementedErr, s, []) ∧
    LedgerLiveApi.completeExchange exchangePayload payloadSignature
      txFeesLevel s env = (.error notImplementedErr, s, []) ∧
    LedgerLiveApi.getDeviceInfo s env =
      (.error notImplementedErr, s, []) ∧
    LedgerLiveApi.listApps s env = (.error notImplementedErr, s, []) ∧
    @LedgerLiveApi.bridgeApp H R appName handler s env =
      (.error notImplementedErr, s, []) ∧
    @LedgerLiveApi.bridgeDashboard H R handler s env =
      (.error notImplementedErr, s, []) :=
  ⟨rfl, rfl, rfl, rfl, rfl, rfl, rfl, rfl⟩

/-- C7: when connected, `_request` never swallows or replaces a failure:
if the underlying request rejects with `e` (transport send failure or
error-shaped response), `_request` rejects with that very `e`, its trace
ending with the warning-level log emitted before the rethrow; if the
request succeeds, `_request` resolves with the raw result payload. -/
theorem request_propagates_error_and_result (method : String)
    (params : Option JValue) (s : ApiState) (env : Env) (k : Nat)
    (hc : s.serverAndClient = some k) :
    (∀ e, env.host method params = .error e →
      (LedgerLiveApi._request method params s env).1 = .error e ∧
      (LedgerLiveApi._request method params s env).2.2 =
        [.logInfo ("request - " ++ method),
         .transportSend method params,
         .logWarn ("error - " ++ method)]) ∧
    ∀ r, env.host method params = .ok r →
      (LedgerLiveApi._request method params s env).1 = .ok r := by
  constructor
  · intro e he
    unfold LedgerLiveApi._request
    rw [hc, he]
    exact ⟨rfl, rfl⟩
  · intro r hr
    unfold LedgerLiveApi._request
    rw [hc, hr]

/-- Witness for C7 at a concrete input: the connected state, method
`account.receive`, the sample host. -/
theorem request_propagates_error_and_result_witness :
    connectedState.serverAndClient = some 0 ∧
    ((∀ e, sampleEnv.host "account.receive" none = .error e →
      (LedgerLiveApi._request "account.receive" none connectedState
        sampleEnv).1 = .error e ∧
      (LedgerLiveApi._request "account.receive" none connectedState
        sampleEnv).2.2 =
        [.logInfo ("request - " ++ "account.receive"),
         .transportSend "account.receive" none,
         .logWarn ("error - " ++ "account.receive")]) ∧
     ∀ r, sampleEnv.host "account.receive" none = .ok r →
      (LedgerLiveApi._request "account.receive" none connectedState
        sampleEnv).1 = .ok r) :=
  ⟨rfl, request_propagates_error_and_result "account.receive" none
    connectedState sampleEnv 0 rfl⟩

/-- C8: if `Transport.connect()` throws during `connect()` on a
not-connected instance, the error propagates, no session is ever
installed (`serverAndClient` stays empty, no installation event), and
every subsequent `_request` still fails with the not-connected error. -/
theorem connect_transport_failure_leaves_disconnected (s : ApiState)
    (env : Env) (e : Err) (h0 : s.serverAndClient = none)
    (hf : env.transportConnect = .error e) :
    (LedgerLiveApi.connect s env).1 = .error e ∧
    (LedgerLiveApi.connect s env).2.1.serverAndClient = none ∧
    (∀ n, Event.sessionInstalled n ∉ (LedgerLiveApi.connect s env).2.2) ∧
    ∀ method params,
      (LedgerLiveApi._request method params
        (LedgerLiveApi.connect s env).2.1 env).1 =
          .error notConnectedErr := by
  simp [LedgerLiveApi.connect, LedgerLiveApi._request, hf, h0]

/-- Witness for C8 at a concrete input: a fresh instance and the
environment whose Transport refuses to connect. -/
theorem connect_transport_failure_leaves_disconnected_witness :
    ApiState.init.serverAndClient = none ∧
    sampleFailEnv.transportConnect = .error (.thrown "ws refused") ∧
    ((LedgerLiveApi.connect ApiState.init sampleFailEnv).1 =
       .error (.thrown "ws refused") ∧
     (LedgerLiveApi.connect ApiState.init
       sampleFailEnv).2.1.serverAndClient = none ∧
     (∀ n, Event.sessionInstalled n ∉
       (LedgerLiveApi.connect ApiState.init sampleFailEnv).2.2) ∧
     ∀ method params,
       (LedgerLiveApi._request method params
         (LedgerLiveApi.connect ApiState.init sampleFailEnv).2.1
         sampleFailEnv).1 = .error notConnectedErr) :=
  ⟨rfl, rfl, connect_transport_failure_leaves_disconnected ApiState.init
    sampleFailEnv (.thrown "ws refused") rfl rfl⟩

/-- C9: when connected, an absent or falsy params argument is replaced by
the empty object in the outgoing request: `requestAccount` and
`listCurrencies` send the empty object as their whole params, and
`signTransaction` sends the empty object in its payload's params field. -/
theorem falsy_params_default_to_empty_object (p : Option JValue)
    (accountId : String) (tx : Transaction) (s : ApiState) (env : Env)
    (k : Nat) (hc : s.serverAndClient = some k)
    (hp : jsFalsyOpt p = true) :
    Event.transportSend "account.request" (some (.obj [])) ∈
      (LedgerLiveApi.requestAccount p s env).2.2 ∧
    Event.transportSend "currency.list" (some (.obj [])) ∈
      (LedgerLiveApi.listCurrencies p s env).2.2 ∧
    Event.transportSend "transaction.sign"
        (some (.obj [("accountId", .str accountId),
                     ("transaction", env.serializeTransaction tx),
                     ("params", .obj [])])) ∈
      (LedgerLiveApi.signTransaction accountId tx p s env).2.2 := by
  have hd := jsOr_of_falsy p (.obj []) hp
  refine ⟨?_, ?_, ?_⟩
  · unfold LedgerLiveApi.requestAccount LedgerLiveApi._request
    rw [hc, hd]
    cases env.host "account.request" (some (.obj [])) <;> simp
  · unfold LedgerLiveApi.listCurrencies LedgerLiveApi._request
    rw [hc, hd]
    cases env.host "currency.list" (some (.obj [])) <;> simp
  · unfold LedgerLiveApi.signTransaction LedgerLiveApi.signPayload
      LedgerLiveApi._request
    rw [hc, hd]
    cases env.host "transaction.sign"
      (some (.obj [("accountId", .str accountId),
                   ("transaction", env.serializeTransaction tx),
                   ("params", .obj [])])) <;> simp

/-- Witness for C9 at a concrete input: an absent params argument on the
connected state with the sample environment. -/
theorem falsy_params_default_to_empty_object_witness :
    connectedState.serverAndClient = some 0 ∧
    jsFalsyOpt none = true ∧
    (Event.transportSend "account.request" (some (.obj [])) ∈
      (LedgerLiveApi.requestAccount none connectedState sampleEnv).2.2 ∧
     Event.transportSend "currency.list" (some (.obj [])) ∈
      (LedgerLiveApi.listCurrencies none connectedState sampleEnv).2.2 ∧
     Event.transportSend "transaction.sign"
        (some (.obj [("accountId", .str "acc-1"),
                     ("transaction",
                      sampleEnv.serializeTransaction
                        (Transaction.mk (.str "t"))),
                     ("params", .obj [])])) ∈
      (LedgerLiveApi.signTransaction "acc-1" (Transaction.mk (.str "t"))
        none connectedState sampleEnv).2.2) :=
  ⟨rfl, rfl, falsy_params_default_to_empty_object none "acc-1"
    (Transaction.mk (.str "t")) connectedState sampleEnv 0 rfl rfl⟩

/-- C10: `disconnect()` is callable in every state, including with no
session installed: given the Transport's `disconnect()` resolves, it
completes without error, unconditionally calls `Transport.disconnect()`,
logs the transition, and leaves the instance with no session. -/
theorem disconnect_total_any_state (s : ApiState) (env : Env)
    (ht : env.transportDisconnect = .ok ()) :
    LedgerLiveApi.disconnect s env =
      (.ok (), { s with serverAndClient := none },
        [.sessionDropped, .transportDisconnect,
         .logInfo "disconnected"]) := by
  unfold LedgerLiveApi.disconnect
  rw [ht]

/-- Witness for C10 at a concrete input: a never-connected fresh
instance with the sample environment. -/
theorem disconnect_total_any_state_witness :
    sampleEnv.transportDisconnect = .ok () ∧
    LedgerLiveApi.disconnect ApiState.init sampleEnv =
      (.ok (), { ApiState.init with serverAndClient := none },
        [.sessionDropped, .transportDisconnect,
         .logInfo "disconnected"]) :=
  ⟨rfl, disconnect_total_any_state ApiState.init sampleEnv rfl⟩

end LedgerLive
